import Mathlib

/-!
# SignalWeaver conflict-detection / decision / trace-replay core: a shallow embedding

This file embeds, in Lean 4, the algorithmic core of the SignalWeaver
backend — the text normalizer, the lexical conflict matcher, the decision
state machine, the acknowledge / archive operations and the trace & replay
engine — translated from

  * `src/backend/src/app/gate.py`               (`UserState`, `GateDecision`, `decide`)
  * `src/backend/src/app/api/gate.py`           (normalizer helpers, `naive_conflicts`,
                                                 `_build_explanations`, `_detect_conflicts`,
                                                 `evaluate`, `replay`, `acknowledge`)
  * `src/backend/src/app/api/anchors.py`        (`archive_anchor`)
  * `src/backend/backend/src/app/models.py`     (`TruthAnchor.stable_hash` and the ORM rows)
  * `src/backend/src/app/schemas.py`            (`parse_id_list`)

Modelling conventions:
  * Python strings are Lean `String`s; `str.lower()` is modelled as ASCII
    lowercasing (`Char.toLower`), which agrees with the Python behaviour on all
    the ASCII policy/request text the system handles.
  * Python `float` money amounts are modelled as exact rationals (`Rat`); the
    only use is comparison of decimal literals against the threshold 100, where
    IEEE rounding is irrelevant at these magnitudes.
  * Python set-intersection cardinalities over token/bigram sets are modelled as
    `setOverlap`, counting distinct elements of one list present in the other.
  * SQLAlchemy tables are Lean lists of rows; autoincrement primary keys are
    modelled by explicit `next…Id` counters on the store.
  * The database `decide`/`evaluate`/`replay`/`acknowledge` handlers run inside
    one transaction; each is modelled as a pure function from a store to a
    store and a response (errors return `Except`/`Option` without a new store,
    matching "raise HTTPException before any mutation").
-/

namespace SW

/-! ## Text normalizer (`src/backend/src/app/api/gate.py`, lines 72-114) -/

/-- Characters matched by the regex class `[a-z0-9]` (the text is lowercased
before tokenization, so `a-z` suffices). -/
def isTokChar (c : Char) : Bool :=
  (('a' ≤ c && c ≤ 'z') || ('0' ≤ c && c ≤ '9'))

/-- Characters matched by `[0-9]`. -/
def isDigitCh (c : Char) : Bool :=
  ('0' ≤ c && c ≤ '9')

/-- ASCII lowercasing, modelling Python `str.lower()` on the ASCII text the
system processes. -/
def pyLower (s : String) : String :=
  String.mk (s.toList.map Char.toLower)

/-- Split a character list into maximal runs of characters satisfying `keep`,
accumulating the current (reversed) run in `cur`.  This is the common engine
behind Python `str.split()` (with `keep := not whitespace`) and
`re.findall(r"[a-z0-9]+", s)` (with `keep := isTokChar`). -/
def runsAux (keep : Char → Bool) (cur : List Char) : List Char → List String
  | [] => if cur.isEmpty then [] else [String.mk cur.reverse]
  | c :: cs =>
    if keep c then
      runsAux keep (c :: cur) cs
    else if cur.isEmpty then
      runsAux keep [] cs
    else
      String.mk cur.reverse :: runsAux keep [] cs

/-- Python `s.split()` with no argument: maximal runs of non-whitespace. -/
def pyWords (s : String) : List String :=
  runsAux (fun c => !c.isWhitespace) [] s.toList

/-- Python `sep.join(parts)`. -/
def joinWith (sep : String) : List String → String
  | [] => ""
  | [x] => x
  | x :: xs => x ++ sep ++ joinWith sep xs

/-- `_norm`: `" ".join(s.strip().lower().split())` — lowercase and collapse
whitespace (the `strip` is subsumed by the no-argument `split`). -/
def _norm (s : String) : String :=
  joinWith " " (pyWords (pyLower s))

/-- `needle.isPrefixOf hay` on character lists, written out so that it reduces
well in the kernel. -/
def charsPrefixOf : List Char → List Char → Bool
  | [], _ => true
  | _ :: _, [] => false
  | a :: as, b :: bs => a == b && charsPrefixOf as bs

/-- Substring test on character lists, modelling Python `needle in hay`. -/
def charsInfixOf (needle : List Char) : List Char → Bool
  | [] => needle.isEmpty
  | c :: rest => charsPrefixOf needle (c :: rest) || charsInfixOf needle rest

/-- Python `needle in hay` for strings. -/
def strIn (needle hay : String) : Bool :=
  charsInfixOf needle.toList hay.toList

/-- `_has_not`: `" not " in f" {_norm s} "` — a standalone `not` token. -/
def _has_not (s : String) : Bool :=
  strIn " not " (" " ++ _norm s ++ " ")

/-- `_strip_not`: drop every `not` token of the normalized string. -/
def _strip_not (s : String) : String :=
  joinWith " " ((pyWords (_norm s)).filter (fun tok => tok != "not"))

/-- Python `t.endswith(suffix)`. -/
def strEndsWith (t suffix : String) : Bool :=
  charsPrefixOf suffix.toList.reverse t.toList.reverse

/-- Python `t[:-n]` for `n ≤ len(t)`. -/
def strDropLast (t : String) (n : Nat) : String :=
  String.mk (t.toList.take (t.toList.length - n))

/-- The light suffix-stripping stem nested inside `_meaningful_tokens`:
drop trailing `ing`/`ed`/`s` above a minimum length. -/
def _stem (t : String) : String :=
  if strEndsWith t "ing" && t.length > 5 then strDropLast t 3
  else if strEndsWith t "ed" && t.length > 4 then strDropLast t 2
  else if strEndsWith t "s" && t.length > 4 then strDropLast t 1
  else t

/-- The `filler` stopword set of `_meaningful_tokens`. -/
def fillerWords : List String :=
  ["a", "an", "the", "to", "and", "or", "of", "in", "on", "for"]

/-- `stop = filler | {"i","you","we","it","is","are","be","will","not","do"}`. -/
def stopWords : List String :=
  fillerWords ++ ["i", "you", "we", "it", "is", "are", "be", "will", "not", "do"]

/-- `re.findall(r"[a-z0-9]+", s)`: maximal runs of `[a-z0-9]` characters. -/
def rawTokens (s : String) : List String :=
  runsAux isTokChar [] s.toList

/-- `_meaningful_tokens`: tokenize the normalized text, stem each raw token,
drop tokens shorter than 3 characters after stemming, drop stopwords. -/
def _meaningful_tokens (s : String) : List String :=
  (rawTokens (_norm s)).filterMap (fun raw =>
    let t := _stem raw
    if t.length < 3 then none
    else if stopWords.contains t then none
    else some t)

/-- `_bigrams` as the underlying list of adjacent-token pairs; the Python set
semantics enters through `setOverlap`, which counts distinct elements. -/
def bigramList : List String → List String
  | a :: b :: rest => (a ++ " " ++ b) :: bigramList (b :: rest)
  | _ => []

/-- `len(set(xs) & set(ys))`: the number of distinct elements of `xs` that also
occur in `ys`. -/
def setOverlap (xs ys : List String) : Nat :=
  ((xs.dedup).filter (fun t => Decidable.decide (t ∈ ys))).length

/-! ## Monetary domain trigger helpers (`api/gate.py`, lines 117-139) -/

/-- Value of a digit list, most significant first (commas already removed). -/
def digitsToNat (ds : List Char) : Nat :=
  ds.foldl (fun n c => 10 * n + (c.toNat - '0'.toNat)) 0

/-- Parse the number part of `_MONEY_RE` immediately after a currency symbol:
`\s*([0-9][0-9,]*(?:\.[0-9]+)?)`, returning its value (commas stripped,
`float(num)` modelled as an exact rational). `none` when the regex does not
match at this position. -/
def parseMoneyNum (cs : List Char) : Option Rat :=
  let cs1 := cs.dropWhile (fun c => c.isWhitespace)
  match cs1 with
  | [] => none
  | c :: _ =>
    if isDigitCh c then
      let body := cs1.takeWhile (fun c => isDigitCh c || c == ',')
      let rest := cs1.dropWhile (fun c => isDigitCh c || c == ',')
      let intPart : Nat := digitsToNat (body.filter isDigitCh)
      match rest with
      | '.' :: r2 =>
        let fracs := r2.takeWhile isDigitCh
        if fracs.isEmpty then some ((intPart : Rat))
        else some ((intPart : Rat) + (digitsToNat fracs : Rat) / ((10 : Rat) ^ fracs.length))
      | _ => some ((intPart : Rat))
    else none

/-- All amounts matched by `_MONEY_RE.finditer`: a currency symbol followed by
an optionally-spaced number.  Matches never contain a later currency symbol,
so scanning from every symbol position coincides with `finditer`. -/
def moneyAmounts : List Char → List Rat
  | [] => []
  | c :: cs =>
    let rest := moneyAmounts cs
    if c == '£' || c == '$' || c == '€' then
      match parseMoneyNum cs with
      | some v => v :: rest
      | none => rest
    else rest

/-- `_max_money_amount`: the maximum money amount in the text, or 0 if none. -/
def _max_money_amount (s : String) : Rat :=
  (moneyAmounts s.toList).foldl max 0

/-- `\w` of `_REFUND_RE` (ASCII word characters). -/
def isWordChar (c : Char) : Bool :=
  (('a' ≤ c && c ≤ 'z') || ('A' ≤ c && c ≤ 'Z') || isDigitCh c || c == '_')

/-- Case-insensitive `refund` prefix at the current position. -/
def refundHere (cs : List Char) : Bool :=
  charsPrefixOf "refund".toList ((cs.take 6).map Char.toLower)

/-- Scan for `\brefund\w*\b` (case-insensitive): an occurrence of `refund` not
preceded by a word character.  The trailing `\w*\b` always succeeds. -/
def refundScan : Bool → List Char → Bool
  | _, [] => false
  | prevWord, c :: cs =>
    (!prevWord && refundHere (c :: cs)) || refundScan (isWordChar c) cs

/-- `_has_refund_word`. -/
def _has_refund_word (s : String) : Bool :=
  refundScan false s.toList

/-! ## Decision state machine (`src/backend/src/app/gate.py`) -/

/-- `UserState` dataclass. -/
structure UserState where
  arousal : String
  dominance : String
deriving DecidableEq

/-- `GateDecision` dataclass. -/
structure GateDecision where
  decision : String
  reason : String
  conflicted_anchor_ids : List Nat
  interpretation : String
  suggestion : String
  next_actions : List String
deriving DecidableEq

/-- `decide`, the v1.3 gate logic: level 3 → hard gate, level 2 → soft gate,
level 1 → proceed with warning, no conflict → proceed clean; high-arousal /
low-dominance states get distinct `state_mismatch_…` reason codes. -/
def decide (state : UserState) (conflicted_anchor_ids : List Nat)
    (max_level_conflict : Nat) : GateDecision :=
  if 3 ≤ max_level_conflict then
    if state.arousal = "high" ∧ state.dominance = "low" then
      { decision := "gate"
        reason := "state_mismatch_with_l3_anchor"
        conflicted_anchor_ids := conflicted_anchor_ids
        interpretation := "This conflicts with a level-3 boundary while your state reads high-arousal / low-control."
        suggestion := "Pause, then reframe the intent to align with the boundary."
        next_actions := ["pause", "reframe", "view_conflicts"] }
    else
      { decision := "gate"
        reason := "l3_anchor_conflict"
        conflicted_anchor_ids := conflicted_anchor_ids
        interpretation := "This conflicts with a level-3 boundary (protected constraint)."
        suggestion := "Rephrase the request so it stays within the boundary."
        next_actions := ["reframe", "view_conflicts", "cancel"] }
  else if max_level_conflict = 2 then
    if state.arousal = "high" ∧ state.dominance = "low" then
      { decision := "gate"
        reason := "state_mismatch_with_l2_anchor"
        conflicted_anchor_ids := conflicted_anchor_ids
        interpretation := "This conflicts with a level-2 policy while your state reads high-arousal / low-control."
        suggestion := "Consider pausing. You can reframe or proceed with acknowledgement."
        next_actions := ["pause", "reframe", "proceed_acknowledged", "view_conflicts"] }
    else
      { decision := "gate"
        reason := "l2_anchor_conflict"
        conflicted_anchor_ids := conflicted_anchor_ids
        interpretation := "This conflicts with a level-2 policy constraint."
        suggestion := "Reframe the request to stay within the boundary, or proceed with acknowledgement."
        next_actions := ["reframe", "proceed_acknowledged", "view_conflicts"] }
  else if max_level_conflict = 1 then
    { decision := "proceed"
      reason := "l1_advisory_conflict"
      conflicted_anchor_ids := conflicted_anchor_ids
      interpretation := "A low-priority advisory constraint was noted. No block applied."
      suggestion := "Proceed, but review the flagged anchor for alignment."
      next_actions := ["proceed", "view_conflicts"] }
  else
    { decision := "proceed"
      reason := "no_conflict"
      conflicted_anchor_ids := []
      interpretation := "No conflicts detected against active anchors."
      suggestion := "Proceed normally."
      next_actions := ["proceed"] }

/-! ## Anchors and the conflict matcher (`api/gate.py`, lines 142-298) -/

/-- `TruthAnchor` ORM row (`models.py`): id, severity level 1..3, statement,
scope namespace, active flag.  `created_at` is omitted: nothing in the
evaluated logic reads it. -/
structure TruthAnchor where
  id : Nat
  level : Nat
  statement : String
  scope : String
  active : Bool
deriving DecidableEq

/-- `TruthAnchor.stable_hash`: the source takes the SHA-256 hexdigest of the
payload `f"{level}|{scope}|{int(active)}|{statement}"`.  The digest is used
only as a deterministic value that changes exactly when one of these fields
changes, so it is modelled by the payload string itself. -/
def stable_hash (a : TruthAnchor) : String :=
  toString a.level ++ "|" ++ a.scope ++ "|" ++ (if a.active then "1" else "0")
    ++ "|" ++ a.statement

/-- The per-anchor body of the `for a in anchors` loop of `naive_conflicts`:
the strong negation-inversion conflict first (`continue`), otherwise the
token/bigram overlap thresholds.  The request-side values are precomputed
once by `naive_conflicts`, exactly as in the source. -/
def anchorLexicalHit (req_wo_not : String) (req_has_not : Bool)
    (req_tokens : List String) (req_bigrams : List String)
    (a : TruthAnchor) : Bool :=
  let stmt_norm := _norm a.statement
  let stmt_has_not := _has_not stmt_norm
  let stmt_wo_not := _strip_not stmt_norm
  if req_wo_not == stmt_wo_not && (req_has_not != stmt_has_not) then
    true
  else
    let stmt_tokens := _meaningful_tokens stmt_norm
    let token_overlap := setOverlap req_tokens stmt_tokens
    let bigram_overlap := setOverlap req_bigrams (bigramList stmt_tokens)
    Decidable.decide (1 ≤ bigram_overlap) || Decidable.decide (2 ≤ token_overlap)

/-- The monetary domain trigger condition: a refund-intent word together with
a money amount strictly above 100. -/
def moneyTrigger (request_summary : String) : Bool :=
  _has_refund_word request_summary
    && Decidable.decide ((100 : Rat) < _max_money_amount request_summary)

/-- `naive_conflicts`: lexical hits in anchor order, then — when the monetary
trigger fires — every active anchor scoped `payments.refunds` that is not
already a hit (Python's `a not in hits` is object identity on ORM rows,
which coincides with structural equality because table rows are distinct). -/
def naive_conflicts (request_summary : String) (anchors : List TruthAnchor) :
    List TruthAnchor :=
  let req_norm := _norm request_summary
  let req_has_not := _has_not req_norm
  let req_wo_not := _strip_not req_norm
  let req_tokens := _meaningful_tokens req_norm
  let req_bigrams := bigramList req_tokens
  let hits := anchors.filter (anchorLexicalHit req_wo_not req_has_not req_tokens req_bigrams)
  if moneyTrigger request_summary then
    hits ++ anchors.filter (fun a =>
      a.active && a.scope == "payments.refunds" && !(Decidable.decide (a ∈ hits)))
  else
    hits

/-- The `high_risk_phrases` of `_build_explanations`.  The source iterates a
Python `set` whose order is unspecified; the literal order is used here (no
claim exercises an input hitting two phrases at once). -/
def highRiskPhrases : List String :=
  ["break into", "break in", "bypass", "lockpick", "pick lock",
   "hotwire", "slim jim", "jimmy", "forced entry", "steal", "theft"]

/-- `_build_explanations`: one plain-English explanation per conflicting
anchor — negation inversion, else high-risk phrasing, else the overlapping
bigrams, else the overlapping tokens, else the generic fallback.  (The
`filler`/`stop` sets defined locally in the source function are dead
variables and are not modelled.) -/
def _build_explanations (request_summary : String) (conflicts : List TruthAnchor) :
    List String :=
  let req_norm := _norm request_summary
  let req_has_not := _has_not req_norm
  let req_wo_not := _strip_not req_norm
  let high_risk_hits := highRiskPhrases.filter (fun p => strIn p req_norm)
  conflicts.map (fun a =>
    let stmt_norm := _norm a.statement
    let stmt_has_not := _has_not stmt_norm
    let stmt_wo_not := _strip_not stmt_norm
    let header := "Anchor L" ++ toString a.level ++ " (" ++ a.scope ++ "): \""
      ++ a.statement ++ "\""
    if req_wo_not == stmt_wo_not && (req_has_not != stmt_has_not) then
      header ++ " — triggered because the request and anchor match after removing \x27not\x27, but one is negated and the other isn\x27t (semantic inversion)."
    else if !high_risk_hits.isEmpty then
      header ++ " — triggered because the request contains high-risk intent phrasing: "
        ++ joinWith ", " high_risk_hits ++ "."
    else
      let req_tokens := _meaningful_tokens req_norm
      let stmt_tokens := _meaningful_tokens stmt_norm
      let matched_tokens := (req_tokens.dedup.filter
        (fun t => Decidable.decide (t ∈ stmt_tokens))).mergeSort (· ≤ ·)
      let matched_bigrams := ((bigramList req_tokens).dedup.filter
        (fun t => Decidable.decide (t ∈ bigramList stmt_tokens))).mergeSort (· ≤ ·)
      if !matched_bigrams.isEmpty then
        header ++ " — triggered because the request matches a meaningful phrase: "
          ++ joinWith ", " matched_bigrams ++ "."
      else if !matched_tokens.isEmpty then
        header ++ " — triggered because the request shares multiple meaningful keywords: "
          ++ joinWith ", " matched_tokens ++ "."
      else
        header ++ " — triggered by the current matching rules (no specific overlap extracted).")

/-- The matcher backend selected by the `SW_MATCHER` environment variable:
the lexical matcher, or the embedding scorer (an external neural model,
abstracted as a similarity function from request text and anchor statement
to a score) with lexical fallback. -/
inductive Matcher where
  | naive : Matcher
  | embedding (score : String → String → Rat) : Matcher

/-- Stable descending insertion for `sorted(…, reverse=True)` on scores. -/
def insertScoreDesc (x : TruthAnchor × Rat) :
    List (TruthAnchor × Rat) → List (TruthAnchor × Rat)
  | [] => [x]
  | y :: ys => if y.2 < x.2 then x :: y :: ys else y :: insertScoreDesc x ys

/-- `find_conflicts_embedding` (`embedding_matcher.py`) with the scoring model
abstracted: `(anchor, score)` pairs at or above the threshold, sorted by
score descending (stable). -/
def find_conflicts_embedding (score : String → String → Rat)
    (request_summary : String) (anchors : List TruthAnchor) (threshold : Rat) :
    List (TruthAnchor × Rat) :=
  (anchors.filterMap (fun a =>
    let s := score request_summary a.statement
    if threshold ≤ s then some (a, s) else none)).foldl
    (fun acc x => insertScoreDesc x acc) []

/-- `match_debug` payload recorded into each trace (serialized to JSON text in
the source; the claims only ever carry it through unchanged). -/
structure MatchDebug where
  evaluated_anchor_count : Nat
  conflicted_ids : List Nat
  matcher_requested : String
  matcher_used : String
  embedding_threshold : Option Rat
  fallback_used : Bool
  fallback_reason : Option String
  matched_scores : List (Nat × Rat)
  max_level_conflict : Nat
deriving DecidableEq

/-- `_detect_conflicts`: run the selected matcher; when the embedding scorer
returns no matches, fall back to the lexical matcher and record the fallback
in the audit payload. -/
def _detect_conflicts (m : Matcher) (request_text : String)
    (anchors : List TruthAnchor) : List TruthAnchor × MatchDebug :=
  match m with
  | .naive =>
    let conflicts := naive_conflicts request_text anchors
    (conflicts,
      { evaluated_anchor_count := anchors.length
        conflicted_ids := conflicts.map (·.id)
        matcher_requested := "naive"
        matcher_used := "naive"
        embedding_threshold := none
        fallback_used := false
        fallback_reason := none
        matched_scores := []
        max_level_conflict := 0 })
  | .embedding score =>
    let scored := find_conflicts_embedding score request_text anchors (mkRat 1 2)
    let conflicts0 := scored.map (·.1)
    let matched_scores := scored.map (fun p => (p.1.id, p.2))
    if conflicts0.isEmpty then
      let conflicts := naive_conflicts request_text anchors
      (conflicts,
        { evaluated_anchor_count := anchors.length
          conflicted_ids := conflicts.map (·.id)
          matcher_requested := "embedding"
          matcher_used := "naive_fallback"
          embedding_threshold := some (mkRat 1 2)
          fallback_used := true
          fallback_reason := some "embedding_no_matches"
          matched_scores := matched_scores
          max_level_conflict := 0 })
    else
      (conflicts0,
        { evaluated_anchor_count := anchors.length
          conflicted_ids := conflicts0.map (·.id)
          matcher_requested := "embedding"
          matcher_used := "embedding"
          embedding_threshold := some (mkRat 1 2)
          fallback_used := false
          fallback_reason := none
          matched_scores := matched_scores
          max_level_conflict := 0 })

/-! ## The persistent store and the four gate operations -/

/-- `GateLog` ORM row (`created_at` omitted: nothing the claims touch reads
it).  `conflicted_anchor_ids` is the comma-joined serialized list. -/
structure GateLog where
  id : Nat
  request_summary : String
  arousal : String
  dominance : String
  interpretation : String
  suggestion : String
  decision : String
  reason : String
  conflicted_anchor_ids : String
  user_choice : String
deriving DecidableEq

/-- `DecisionTrace` ORM row.  `match_debug` is the payload the source stores
as JSON text in `match_debug_json`; `policy_profile_id` is always `None` in
the evaluated code and is omitted. -/
structure DecisionTrace where
  id : Nat
  request_text : String
  request_normalized : String
  arousal : String
  dominance : String
  decision : String
  reason : String
  explanation : String
  match_debug : MatchDebug
deriving DecidableEq

/-- `DecisionTraceAnchor` ORM row: the per-anchor snapshot taken at decision
time, the unit of drift detection. -/
structure DecisionTraceAnchor where
  trace_id : Nat
  anchor_id : Nat
  anchor_hash : String
  level_snapshot : Nat
  scope_snapshot : String
  active_snapshot : Bool
  statement_snapshot : String
  matched : Bool
  match_note : String
deriving DecidableEq

/-- The shared mutable store: the four tables the gate operations touch, with
explicit autoincrement counters for the two id sequences the claims need. -/
structure Store where
  anchors : List TruthAnchor
  logs : List GateLog
  traces : List DecisionTrace
  traceAnchors : List DecisionTraceAnchor
  nextLogId : Nat
  nextTraceId : Nat
deriving DecidableEq

/-- `db.get(TruthAnchor, id)` / the `current_by_id` lookup of `replay`. -/
def findAnchor (db : Store) (anchor_id : Nat) : Option TruthAnchor :=
  db.anchors.find? (fun a => a.id == anchor_id)

/-- `db.get(DecisionTrace, trace_id)`. -/
def findTrace (db : Store) (trace_id : Nat) : Option DecisionTrace :=
  db.traces.find? (fun t => t.id == trace_id)

/-- `db.get(GateLog, log_id)`. -/
def findLog (db : Store) (log_id : Nat) : Option GateLog :=
  db.logs.find? (fun l => l.id == log_id)

/-- `parse_id_list` (`schemas.py`): split the serialized list on commas,
strip, skip empty or non-numeric parts. -/
def parse_id_list (s : String) : List Nat :=
  if s.isEmpty then []
  else (s.splitOn ",").filterMap (fun part =>
    let p := part.trim
    if p.isEmpty then none
    else if p.toList.all isDigitCh then some (digitsToNat p.toList)
    else none)

/-- `",".join(str(i) for i in ids)`. -/
def joinIds (ids : List Nat) : String :=
  joinWith "," (ids.map toString)

/-- `GateEvaluateIn` (profile selection is not modelled: every claim
evaluates without a profile, `payload.profile_id = None`). -/
structure GateEvalIn where
  request_summary : String
  arousal : String
  dominance : String

/-- `GateEvaluateOut`, restricted to the fields some claim mentions (the
`ethos_refs` / `warnings` / `warning_anchors` response decoration is read by
no claim), with the `decision ≠ proceed`-only fields optional as in the
source. -/
structure GateEvalOut where
  decision : String
  reason : String
  interpretation : Option String
  suggestion : Option String
  explanations : Option (List String)
  next_actions : Option (List String)
  conflicted_anchor_ids : List Nat
  log_id : Nat
  trace_id : Nat
deriving DecidableEq

/-- `max((a.level for a in conflicts), default=0)`. -/
def maxLevel (conflicts : List TruthAnchor) : Nat :=
  (conflicts.map (·.level)).foldl max 0

/-- `evaluate` (`api/gate.py`, lines 306-431), the no-profile path: load the
active anchors, detect conflicts, build explanations, decide, and append the
log row, the trace row, and one snapshot row per considered anchor, all in
one transaction.  The trace's `explanation` column is set from
`getattr(decision, "explanation", "") or getattr(decision, "explain", "") or ""`;
`GateDecision` has neither attribute, so the stored value is always `""`. -/
def evaluate (m : Matcher) (db : Store) (payload : GateEvalIn) :
    Store × GateEvalOut :=
  let active_anchors := db.anchors.filter (·.active)
  let res := _detect_conflicts m payload.request_summary active_anchors
  let conflicts := res.1
  let explanations_list := _build_explanations payload.request_summary conflicts
  let explanation_text := joinWith " " explanations_list
  let conflicted_ids := conflicts.map (·.id)
  let max_level := maxLevel conflicts
  let decision := decide ⟨payload.arousal, payload.dominance⟩ conflicted_ids max_level
  let log : GateLog :=
    { id := db.nextLogId
      request_summary := payload.request_summary
      arousal := payload.arousal
      dominance := payload.dominance
      interpretation := explanation_text
      suggestion := ""
      decision := decision.decision
      reason := decision.reason
      conflicted_anchor_ids := joinIds conflicted_ids
      user_choice := "" }
  let md := { res.2 with conflicted_ids := conflicted_ids, max_level_conflict := max_level }
  let trace : DecisionTrace :=
    { id := db.nextTraceId
      request_text := payload.request_summary
      request_normalized := _norm payload.request_summary
      arousal := payload.arousal
      dominance := payload.dominance
      decision := decision.decision
      reason := decision.reason
      explanation := ""
      match_debug := md }
  let rows := active_anchors.map (fun a =>
    { trace_id := trace.id
      anchor_id := a.id
      anchor_hash := stable_hash a
      level_snapshot := a.level
      scope_snapshot := a.scope
      active_snapshot := a.active
      statement_snapshot := a.statement
      matched := conflicted_ids.contains a.id
      match_note := if conflicted_ids.contains a.id then "conflict" else ""
      : DecisionTraceAnchor })
  let db2 : Store :=
    { db with
      logs := db.logs ++ [log]
      traces := db.traces ++ [trace]
      traceAnchors := db.traceAnchors ++ rows
      nextLogId := db.nextLogId + 1
      nextTraceId := db.nextTraceId + 1 }
  let out : GateEvalOut :=
    { decision := decision.decision
      reason := decision.reason
      interpretation := if decision.decision != "proceed" then some decision.interpretation else none
      suggestion := if decision.decision != "proceed" then some decision.suggestion else none
      explanations := if decision.decision != "proceed" then some explanations_list else none
      next_actions := if decision.decision != "proceed" then some decision.next_actions else none
      conflicted_anchor_ids := conflicted_ids
      log_id := log.id
      trace_id := trace.id }
  (db2, out)

/-- `ReplayOut` (`backend/review/schemas.py` variant actually used by the
router).  `match_debug` carries the stored trace payload back verbatim. -/
structure ReplayOut where
  trace_id : Nat
  same_decision : Bool
  same_reason : Bool
  same_explanation : Bool
  anchor_drift : List String
  decision_before : String
  decision_now : String
  reason_before : String
  reason_now : String
  explanation : String
  match_debug : MatchDebug
deriving DecidableEq

/-- Ascending insertion by `anchor_id`, modelling the relationship ordering
`order_by="DecisionTraceAnchor.anchor_id"` on `trace.anchors`. -/
def insertRowAsc (x : DecisionTraceAnchor) :
    List DecisionTraceAnchor → List DecisionTraceAnchor
  | [] => [x]
  | y :: ys => if x.anchor_id < y.anchor_id then x :: y :: ys else y :: insertRowAsc x ys

/-- Sort snapshot rows by `anchor_id` ((trace, anchor) is unique, so ties do
not arise). -/
def sortRows : List DecisionTraceAnchor → List DecisionTraceAnchor
  | [] => []
  | x :: xs => insertRowAsc x (sortRows xs)

/-- `trace.anchors`: the snapshot rows of one trace, in `anchor_id` order. -/
def traceRows (db : Store) (trace : DecisionTrace) : List DecisionTraceAnchor :=
  sortRows (db.traceAnchors.filter (fun r => r.trace_id == trace.id))

/-- Python `repr` of a boolean, as interpolated into drift strings. -/
def pyBoolStr (b : Bool) : String :=
  if b then "True" else "False"

/-- Python `s[:8]`. -/
def strTake8 (s : String) : String :=
  String.mk (s.toList.take 8)

/-- The drift entries one snapshot row contributes in `replay`'s drift loop:
missing anchor, changed hash, flipped active flag, changed level, changed
scope — in source order, against the current-anchor lookup `f`. -/
def driftEntriesFor (f : Nat → Option TruthAnchor) (r : DecisionTraceAnchor) :
    List String :=
  match f r.anchor_id with
  | none => ["Anchor " ++ toString r.anchor_id ++ " missing (deleted)"]
  | some a =>
    (if stable_hash a != r.anchor_hash then
      ["Anchor " ++ toString r.anchor_id ++ " changed (hash " ++ strTake8 r.anchor_hash
        ++ " -> " ++ strTake8 (stable_hash a) ++ ")"]
     else []) ++
    (if a.active != r.active_snapshot then
      ["Anchor " ++ toString r.anchor_id ++ " active flag changed ("
        ++ pyBoolStr r.active_snapshot ++ " -> " ++ pyBoolStr a.active ++ ")"]
     else []) ++
    (if a.level != r.level_snapshot then
      ["Anchor " ++ toString r.anchor_id ++ " level changed ("
        ++ toString r.level_snapshot ++ " -> " ++ toString a.level ++ ")"]
     else []) ++
    (if a.scope != r.scope_snapshot then
      ["Anchor " ++ toString r.anchor_id ++ " scope changed ("
        ++ r.scope_snapshot ++ " -> " ++ a.scope ++ ")"]
     else [])

/-- The distinct ids of currently active anchors (`set(select(TruthAnchor.id)
.where(active))`), in table order. -/
def activeIdsDedup (db : Store) : List Nat :=
  ((db.anchors.filter (·.active)).map (·.id)).dedup

/-- The body of `replay` after the trace is loaded, as a function of the
trace, its snapshot rows, the current-anchor lookup, and the current active
id set — the exact inputs the source reads from the store. -/
def replayAssemble (m : Matcher) (trace : DecisionTrace)
    (rows : List DecisionTraceAnchor) (f : Nat → Option TruthAnchor)
    (activeIds : List Nat) : ReplayOut :=
  let anchor_ids := rows.map (·.anchor_id)
  let drift1 := rows.flatMap (driftEntriesFor f)
  let anchors_ordered_now := anchor_ids.filterMap f
  let res := _detect_conflicts m trace.request_text anchors_ordered_now
  let conflicts := res.1
  let conflicted_ids := conflicts.map (·.id)
  let max_level := maxLevel conflicts
  let result := decide ⟨trace.arousal, trace.dominance⟩ conflicted_ids max_level
  let decision_now := result.decision
  let reason_now := result.reason
  let explanations_now := _build_explanations trace.request_text conflicts
  let explanation_now := joinWith " | " explanations_now
  let new_ids := activeIds.filter (fun i => !(anchor_ids.contains i))
  let drift :=
    if new_ids.isEmpty then drift1
    else drift1 ++ [toString new_ids.length ++ " new active anchors added since trace (not replayed)"]
  { trace_id := trace.id
    same_decision := decision_now == trace.decision
    same_reason := reason_now == trace.reason
    same_explanation := explanation_now == trace.explanation
    anchor_drift := drift
    decision_before := trace.decision
    decision_now := decision_now
    reason_before := trace.reason
    reason_now := reason_now
    explanation := explanation_now
    match_debug := trace.match_debug }

/-- `replay` (`api/gate.py`, lines 510-627): load the trace (404 → `none`),
then drift-check every snapshot row against the current anchors, re-run the
matcher and decision machine on the current versions of the originally
considered anchors in original order, and compare to the stored outcome.
The matcher backend `m` models the `SW_MATCHER` environment variable, which
the source reads inside `_detect_conflicts` during replay as well. -/
def replay (m : Matcher) (db : Store) (trace_id : Nat) : Option ReplayOut :=
  match findTrace db trace_id with
  | none => none
  | some trace =>
    some (replayAssemble m trace (traceRows db trace) (findAnchor db) (activeIdsDedup db))

/-- `archive_anchor` (`api/anchors.py`): 404 when the anchor is missing,
otherwise flip `active` to `False` and return the updated row. -/
def archive_anchor (db : Store) (anchor_id : Nat) : Option (Store × TruthAnchor) :=
  match findAnchor db anchor_id with
  | none => none
  | some a =>
    let a2 := { a with active := false }
    some ({ db with anchors := db.anchors.map (fun x =>
      if x.id == anchor_id then { x with active := false } else x) }, a2)

/-- `GateAcknowledgeIn`: the payload fields the handler reads (`log_id`,
`acknowledgement`, optional affect overrides).  The pydantic class itself is
declared in a schema module not present in the source tree; its shape is
fully determined by the handler's reads. -/
structure GateAckIn where
  log_id : Nat
  acknowledgement : String
  arousal : Option String
  dominance : Option String

/-- `GateAcknowledgeOut`, restricted to fields some claim mentions. -/
structure GateAckOut where
  parent_log_id : Nat
  acknowledgement : String
  decision : String
  reason : String
  interpretation : String
  suggestion : String
  next_actions : List String
  conflicted_anchor_ids : List Nat
  warnings : List String
  log_id : Nat
deriving DecidableEq

/-- The two client errors the acknowledge handler raises. -/
inductive ApiError where
  | notFound (detail : String)
  | unprocessable (detail : String)
deriving DecidableEq

/-- `acknowledge` (`api/gate.py`, lines 693-744): 404 when the parent log is
missing; 422 unless the parent decision is `gate` with a reason containing
`"l2"`; on success append a new proceed/`proceed_acknowledged` log linked to
the parent, preserving the parent's serialized conflicted-id list and
recording the acknowledgement text.  Errors are raised before any mutation,
so the error cases return no store. -/
def acknowledge (db : Store) (payload : GateAckIn) :
    Except ApiError (Store × GateAckOut) :=
  match findLog db payload.log_id with
  | none => .error (.notFound "gate log not found")
  | some parent =>
    if parent.decision != "gate" || !(strIn "l2" parent.reason) then
      .error (.unprocessable "acknowledge is only valid after a level-2 gate decision")
    else
      let arousal := payload.arousal.getD parent.arousal
      let dominance := payload.dominance.getD parent.dominance
      let conflicted_ids := parse_id_list parent.conflicted_anchor_ids
      let log : GateLog :=
        { id := db.nextLogId
          request_summary := parent.request_summary
          arousal := arousal
          dominance := dominance
          interpretation := "User acknowledged level-2 conflict and chose to proceed. Acknowledgement: "
            ++ payload.acknowledgement
          suggestion := "Proceed. Acknowledgement is on record."
          decision := "proceed"
          reason := "proceed_acknowledged"
          conflicted_anchor_ids := parent.conflicted_anchor_ids
          user_choice := "proceed_acknowledged:" ++ toString parent.id }
      .ok ({ db with logs := db.logs ++ [log], nextLogId := db.nextLogId + 1 },
        { parent_log_id := parent.id
          acknowledgement := payload.acknowledgement
          decision := "proceed"
          reason := "proceed_acknowledged"
          interpretation := "User acknowledged level-2 conflict and chose to proceed."
          suggestion := "Proceed. Acknowledgement is on record."
          next_actions := ["proceed"]
          conflicted_anchor_ids := conflicted_ids
          warnings := [parent.interpretation]
          log_id := log.id })

end SW

/-! ## Claims about the decision state machine and the tokenizer -/

/-- **C1.** The decision state machine is exactly the spec transition table:
for every affect state and conflicted-id list, `decide` gates on max severity
≥ 3 (reason `state_mismatch_with_l3_anchor` when arousal=high and
dominance=low, else `l3_anchor_conflict`), gates on severity 2 analogously,
proceeds with `l1_advisory_conflict` on severity 1, proceeds with
`no_conflict` and an empty conflicted-id list on severity 0, and never
returns `refuse`. -/
theorem c1_decision_state_machine (a d : String) (ids : List Nat) (lvl : Nat) :
    (SW.decide ⟨a, d⟩ ids lvl).decision ≠ "refuse"
    ∧ (3 ≤ lvl →
        (SW.decide ⟨a, d⟩ ids lvl).decision = "gate"
        ∧ (SW.decide ⟨a, d⟩ ids lvl).reason =
            (if a = "high" ∧ d = "low" then "state_mismatch_with_l3_anchor"
             else "l3_anchor_conflict"))
    ∧ (lvl = 2 →
        (SW.decide ⟨a, d⟩ ids lvl).decision = "gate"
        ∧ (SW.decide ⟨a, d⟩ ids lvl).reason =
            (if a = "high" ∧ d = "low" then "state_mismatch_with_l2_anchor"
             else "l2_anchor_conflict"))
    ∧ (lvl = 1 →
        (SW.decide ⟨a, d⟩ ids lvl).decision = "proceed"
        ∧ (SW.decide ⟨a, d⟩ ids lvl).reason = "l1_advisory_conflict")
    ∧ (lvl = 0 →
        (SW.decide ⟨a, d⟩ ids lvl).decision = "proceed"
        ∧ (SW.decide ⟨a, d⟩ ids lvl).reason = "no_conflict"
        ∧ (SW.decide ⟨a, d⟩ ids lvl).conflicted_anchor_ids = []) := by
  unfold SW.decide
  split_ifs with h1 h2 h3 h4 h5 <;>
    refine ⟨by simp, ?_, ?_, ?_, ?_⟩ <;> intro h <;> simp_all

/-- Witness for C1 at concrete inputs: a high-arousal / low-dominance state
with a level-3 conflict gates with the state-mismatch reason, and a clean
severity-0 call proceeds with an empty conflicted-id list. -/
theorem c1_decision_state_machine_witness :
    (SW.decide ⟨"high", "low"⟩ [7] 3).decision = "gate"
    ∧ (SW.decide ⟨"high", "low"⟩ [7] 3).reason = "state_mismatch_with_l3_anchor"
    ∧ (SW.decide ⟨"med", "med"⟩ [9] 0).conflicted_anchor_ids = [] := by
  have h1 := c1_decision_state_machine "high" "low" [7] 3
  have h2 := c1_decision_state_machine "med" "med" [9] 0
  refine ⟨(h1.2.1 (by decide)).1, ?_, (h2.2.2.2.2 rfl).2.2⟩
  have hr := (h1.2.1 (by decide)).2
  simpa using hr

/-- **C10.** Implicit interface guarantee of `decide`: at max severity 0 the
returned conflicted-id list is empty even when a non-empty list was passed
in; at every max severity ≥ 1 the returned list is exactly the input list,
unchanged and in order (`lvl ≠ 0` is `1 ≤ lvl` on naturals). -/
theorem c10_decide_conflicted_ids (a d : String) (ids : List Nat) (lvl : Nat) :
    (SW.decide ⟨a, d⟩ ids lvl).conflicted_anchor_ids =
      (if lvl = 0 then [] else ids) := by
  unfold SW.decide
  split_ifs <;> simp_all
  omega

/-- **C8, counterexample.** The claim says the `l2_anchor_conflict` reason
offers `reframe`, `view_conflicts`, `cancel` plus `proceed_acknowledged`, and
that `l1_advisory_conflict` offers `proceed` alone.  In the code the
severity-2 action list has no `cancel`, and the severity-1 list also offers
`view_conflicts`. -/
theorem c8_next_actions_counterexample :
    "cancel" ∉ (SW.decide ⟨"unknown", "unknown"⟩ [1] 2).next_actions
    ∧ (SW.decide ⟨"unknown", "unknown"⟩ [1] 1).next_actions ≠ ["proceed"]
    ∧ "view_conflicts" ∈ (SW.decide ⟨"unknown", "unknown"⟩ [1] 1).next_actions := by
  decide

/-- **C8, amended.** Allowed next actions per reason code as the code fixes
them: `l3_anchor_conflict` offers exactly `[reframe, view_conflicts, cancel]`;
`l2_anchor_conflict` offers exactly `[reframe, proceed_acknowledged,
view_conflicts]` (no `cancel`); `l1_advisory_conflict` offers
`[proceed, view_conflicts]`; `no_conflict` offers `[proceed]` alone. -/
theorem c8_next_actions_by_reason (a d : String) (ids : List Nat) (lvl : Nat) :
    ((SW.decide ⟨a, d⟩ ids lvl).reason = "l3_anchor_conflict" →
      (SW.decide ⟨a, d⟩ ids lvl).next_actions = ["reframe", "view_conflicts", "cancel"])
    ∧ ((SW.decide ⟨a, d⟩ ids lvl).reason = "l2_anchor_conflict" →
      (SW.decide ⟨a, d⟩ ids lvl).next_actions = ["reframe", "proceed_acknowledged", "view_conflicts"])
    ∧ ((SW.decide ⟨a, d⟩ ids lvl).reason = "l1_advisory_conflict" →
      (SW.decide ⟨a, d⟩ ids lvl).next_actions = ["proceed", "view_conflicts"])
    ∧ ((SW.decide ⟨a, d⟩ ids lvl).reason = "no_conflict" →
      (SW.decide ⟨a, d⟩ ids lvl).next_actions = ["proceed"]) := by
  unfold SW.decide
  split_ifs <;>
    refine ⟨?_, ?_, ?_, ?_⟩ <;> intro h <;> first
      | rfl
      | (dsimp only at h; exact absurd h (by decide))

/-- Witness for C8 (amended) at a concrete severity-2 input. -/
theorem c8_next_actions_by_reason_witness :
    (SW.decide ⟨"med", "med"⟩ [3] 2).next_actions =
      ["reframe", "proceed_acknowledged", "view_conflicts"] :=
  (c8_next_actions_by_reason "med" "med" [3] 2).2.1 (by decide)

/-- **C9, counterexample.** The tokenizer does not map `deleting`, `deleted`
and `deletes` to one identical form: the first two stem to `delet` while
`deletes` stems to `delete` (only the final `s` is dropped). -/
theorem c9_stem_counterexample :
    SW._meaningful_tokens "deleting deleted deletes" = ["delet", "delet", "delete"]
    ∧ ("delet" : String) ≠ "delete" := by
  decide

/-- **C9, amended.** `deleting` and `deleted` stem to the common form `delet`
while `deletes` stems to `delete`; and for every input string, every token
returned by the tokenizer has length at least 3 after stemming. -/
theorem c9_stem_and_length_floor :
    SW._stem "deleting" = "delet"
    ∧ SW._stem "deleted" = "delet"
    ∧ SW._stem "deletes" = "delete"
    ∧ ∀ (s : String), ∀ t ∈ SW._meaningful_tokens s, 3 ≤ t.length := by
  refine ⟨by decide, by decide, by decide, ?_⟩
  intro s t ht
  unfold SW._meaningful_tokens at ht
  rw [List.mem_filterMap] at ht
  obtain ⟨raw, -, hf⟩ := ht
  simp only at hf
  split at hf
  · exact absurd hf (by simp)
  · split at hf
    · exact absurd hf (by simp)
    · rw [Option.some.injEq] at hf
      subst hf
      omega

/-- Witness for C9 (amended): the length floor evaluated at a concrete
token of a concrete input. -/
theorem c9_stem_and_length_floor_witness : 3 ≤ ("delet" : String).length :=
  c9_stem_and_length_floor.2.2.2 "deleting" "delet" (by decide)

/-! ## Claims about the conflict matcher and the evaluate pipeline -/

/-- The §8 scenario anchor as the repository seeds it (`mcp_demo/seed_anchors.py`):
level 3, scope `payments`. -/
def c2SeededStore : SW.Store :=
  ⟨[⟨1, 3, "Do not process payments above £100 without explicit user review", "payments", true⟩],
    [], [], [], 1, 1⟩

/-- The same anchor scoped `payments.refunds`, the string the monetary
trigger actually compares against. -/
def c2RefundsStore : SW.Store :=
  ⟨[⟨1, 3, "Do not process payments above £100 without explicit user review", "payments.refunds", true⟩],
    [], [], [], 1, 1⟩

/-- The §8 monetary-trigger request with affect unknown/unknown. -/
def c2Payload : SW.GateEvalIn :=
  ⟨"Refund £10000 to customer", "unknown", "unknown"⟩

/-- **C2 (code-bug evidence).** Evaluating the spec scenario — request
"Refund £10000 to customer" against the seeded level-3 payment anchor with
scope `payments` — yields `proceed`/`no_conflict`, not the claimed
`gate`/`l3_anchor_conflict`: the monetary trigger compares the scope against
the literal `"payments.refunds"`, which no seed in the repository uses, so
the repository's own smoke-test expectation for this request fails.  With
the scope spelled `payments.refunds` the trigger fires and the claimed
outcome appears. -/
theorem c2_monetary_trigger_scope_bug :
    (SW.evaluate .naive c2SeededStore c2Payload).2.decision = "proceed"
    ∧ (SW.evaluate .naive c2SeededStore c2Payload).2.reason = "no_conflict"
    ∧ (SW.evaluate .naive c2SeededStore c2Payload).2.conflicted_anchor_ids = []
    ∧ (SW.evaluate .naive c2RefundsStore c2Payload).2.decision = "gate"
    ∧ (SW.evaluate .naive c2RefundsStore c2Payload).2.reason = "l3_anchor_conflict" := by
  refine ⟨?_, ?_, ?_, ?_, ?_⟩ <;> decide

/-- Store for the C3 evidence: one active level-1 anchor in conflict with the
evaluated request. -/
def c3Store : SW.Store :=
  ⟨[⟨1, 1, "cats are allowed", "global", true⟩], [], [], [], 1, 1⟩

/-- The C3 request: flagged by the negation-inversion rule, so the trace
records a conflict. -/
def c3Payload : SW.GateEvalIn :=
  ⟨"cats are not allowed", "med", "med"⟩

/-- **C3 (code-bug evidence).** Immediately replaying a trace that `evaluate`
just produced, with no anchor change in between, returns
`same_decision = true` and `same_reason = true` but `same_explanation = false`
whenever the trace recorded any conflict: `evaluate` stores the trace's
`explanation` column from `getattr(decision, "explanation", "") or
getattr(decision, "explain", "") or ""` — attributes `GateDecision` does not
have, so the stored value is `""` — while `replay` compares it against a
freshly rebuilt non-empty `" | "`-joined explanation.  (Both replay runs are
the same value of a pure function here, so the two-runs-identical half of
the claim is immediate; the all-true half is what fails.) -/
theorem c3_replay_same_explanation_bug :
    ∃ rep, SW.replay .naive (SW.evaluate .naive c3Store c3Payload).1
        (SW.evaluate .naive c3Store c3Payload).2.trace_id = some rep
      ∧ rep.same_decision = true
      ∧ rep.same_reason = true
      ∧ rep.same_explanation = false := by
  refine ⟨_, rfl, ?_, ?_, ?_⟩ <;> decide

/-- Store for the C7 negation-inversion scenario: a single active level-1
anchor `cats are allowed`. -/
def c7Store : SW.Store :=
  ⟨[⟨1, 1, "cats are allowed", "global", true⟩], [], [], [], 1, 1⟩

/-- **C7.** Per-anchor match predicate: absent the monetary trigger, an
anchor is flagged iff the negation-inversion rule fires (negation-stripped
normalized forms identical while exactly one side carries a negation) or the
overlap rule fires (stemmed meaningful-token sets share ≥ 2 tokens, or
bigram sets share ≥ 1 bigram); and the scenario — request
"cats are not allowed" against level-1 anchor "cats are allowed" — proceeds
with `l1_advisory_conflict` and a non-empty conflicted-id list. -/
theorem c7_match_predicate :
    (∀ (req : String) (anchors : List SW.TruthAnchor) (a : SW.TruthAnchor),
      a ∈ anchors →
      SW.moneyTrigger req = false →
      (a ∈ SW.naive_conflicts req anchors ↔
        ((SW._strip_not (SW._norm req) = SW._strip_not (SW._norm a.statement)
            ∧ SW._has_not (SW._norm req) ≠ SW._has_not (SW._norm a.statement))
         ∨ (2 ≤ SW.setOverlap (SW._meaningful_tokens (SW._norm req))
              (SW._meaningful_tokens (SW._norm a.statement))
            ∨ 1 ≤ SW.setOverlap (SW.bigramList (SW._meaningful_tokens (SW._norm req)))
              (SW.bigramList (SW._meaningful_tokens (SW._norm a.statement)))))))
    ∧ (SW.evaluate .naive c7Store ⟨"cats are not allowed", "med", "med"⟩).2.decision = "proceed"
    ∧ (SW.evaluate .naive c7Store ⟨"cats are not allowed", "med", "med"⟩).2.reason = "l1_advisory_conflict"
    ∧ (SW.evaluate .naive c7Store ⟨"cats are not allowed", "med", "med"⟩).2.conflicted_anchor_ids ≠ [] := by
  refine ⟨?_, by decide, by decide, by decide⟩
  intro req anchors a ha htrig
  unfold SW.naive_conflicts
  simp only [htrig, Bool.false_eq_true, if_false, List.mem_filter, ha, true_and]
  unfold SW.anchorLexicalHit
  dsimp only
  split
  case isTrue h =>
    simp only [Bool.and_eq_true, beq_iff_eq, bne_iff_ne] at h
    simp [h]
  case isFalse h =>
    simp only [Bool.and_eq_true, beq_iff_eq, bne_iff_ne, not_and] at h
    simp only [Bool.or_eq_true, decide_eq_true_eq]
    constructor
    · intro hov
      exact Or.inr (hov.elim Or.inr Or.inl)
    · intro hform
      rcases hform with hneg | hov
      · exact absurd hneg.2 (h hneg.1)
      · exact hov.elim Or.inr Or.inl

/-- Witness for C7: the iff applied to the concrete scenario anchor, flagged
through its negation-inversion disjunct. -/
theorem c7_match_predicate_witness :
    (⟨1, 1, "cats are allowed", "global", true⟩ : SW.TruthAnchor) ∈
      SW.naive_conflicts "cats are not allowed"
        [⟨1, 1, "cats are allowed", "global", true⟩] := by
  have h := c7_match_predicate.1 "cats are not allowed"
    [⟨1, 1, "cats are allowed", "global", true⟩]
    ⟨1, 1, "cats are allowed", "global", true⟩ (by decide) (by decide)
  exact h.mpr (Or.inl (by decide))

/-! ## Claims about acknowledge -/

/-- The reason codes the system ever writes into a Gate Log: the six reasons
`decide` produces, plus `proceed_acknowledged` written by the acknowledge
handler.  (`evaluate`, `reframe` and `acknowledge` are the only writers of
log rows.) -/
def gateReasonVocab : List String :=
  ["state_mismatch_with_l3_anchor", "l3_anchor_conflict",
   "state_mismatch_with_l2_anchor", "l2_anchor_conflict",
   "l1_advisory_conflict", "no_conflict", "proceed_acknowledged"]

/-- On the reason vocabulary the system writes, the handler's substring test
`"l2" in parent.reason` recognizes exactly the two level-2 reason codes. -/
theorem strIn_l2_iff_level2 (r : String) (h : r ∈ gateReasonVocab) :
    SW.strIn "l2" r = true ↔
      (r = "l2_anchor_conflict" ∨ r = "state_mismatch_with_l2_anchor") := by
  simp only [gateReasonVocab, List.mem_cons, List.not_mem_nil, or_false] at h
  rcases h with h | h | h | h | h | h | h <;> subst h <;> decide

/-- **C5.** Acknowledge precondition and effect: with the parent's reason in
the vocabulary the system writes, `acknowledge` fails with the 422 client
error — returning no store, i.e. mutating nothing — whenever the parent
decision is not `gate` or its reason is not a level-2 reason (in particular
for `l3_anchor_conflict` parents); and on a level-2 gate parent it succeeds,
appending exactly one new Gate Log row with decision `proceed`, reason
`proceed_acknowledged`, the parent's serialized conflicted-anchor-id list
preserved verbatim, and the operator's acknowledgement text recorded, while
the parent row itself is still present unchanged. -/
theorem c5_acknowledge_precondition (db : SW.Store) (payload : SW.GateAckIn)
    (parent : SW.GateLog)
    (hfind : SW.findLog db payload.log_id = some parent)
    (hvocab : parent.reason ∈ gateReasonVocab) :
    (¬(parent.decision = "gate"
        ∧ (parent.reason = "l2_anchor_conflict"
           ∨ parent.reason = "state_mismatch_with_l2_anchor")) →
      SW.acknowledge db payload =
        .error (.unprocessable "acknowledge is only valid after a level-2 gate decision"))
    ∧ ((parent.decision = "gate"
        ∧ (parent.reason = "l2_anchor_conflict"
           ∨ parent.reason = "state_mismatch_with_l2_anchor")) →
      ∃ (db2 : SW.Store) (out : SW.GateAckOut) (newLog : SW.GateLog),
        SW.acknowledge db payload = .ok (db2, out)
        ∧ db2.anchors = db.anchors
        ∧ db2.traces = db.traces
        ∧ db2.traceAnchors = db.traceAnchors
        ∧ db2.logs = db.logs ++ [newLog]
        ∧ parent ∈ db2.logs
        ∧ newLog.decision = "proceed"
        ∧ newLog.reason = "proceed_acknowledged"
        ∧ newLog.conflicted_anchor_ids = parent.conflicted_anchor_ids
        ∧ newLog.interpretation =
            "User acknowledged level-2 conflict and chose to proceed. Acknowledgement: "
              ++ payload.acknowledgement
        ∧ out.decision = "proceed"
        ∧ out.reason = "proceed_acknowledged"
        ∧ out.conflicted_anchor_ids = SW.parse_id_list parent.conflicted_anchor_ids) := by
  have hl2 := strIn_l2_iff_level2 parent.reason hvocab
  have hparent : parent ∈ db.logs := List.mem_of_find?_eq_some hfind
  unfold SW.acknowledge
  rw [hfind]
  constructor
  · intro hnot
    have hcond : (parent.decision != "gate" || !(SW.strIn "l2" parent.reason)) = true := by
      rcases not_and_or.mp hnot with hd | hr
      · simp [bne_iff_ne, hd]
      · have hfalse : SW.strIn "l2" parent.reason = false := by
          cases hsi : SW.strIn "l2" parent.reason
          · rfl
          · exact absurd (hl2.mp hsi) hr
        simp [hfalse]
    simp only [hcond, if_true]
  · intro hyes
    have hcond : (parent.decision != "gate" || !(SW.strIn "l2" parent.reason)) = false := by
      simp [hyes.1, hl2.mpr hyes.2]
    simp only [hcond, Bool.false_eq_true, if_false]
    exact ⟨_, _, _, rfl, rfl, rfl, rfl, rfl,
      List.mem_append_left _ hparent, rfl, rfl, rfl, rfl, rfl, rfl, rfl⟩

/-- Concrete store for the C5 witness: a level-2 gate log (id 1) and a
level-3 gate log (id 2). -/
def c5Store : SW.Store :=
  ⟨[],
   [⟨1, "cause financial damage", "med", "med", "flagged", "", "gate", "l2_anchor_conflict", "4,7", ""⟩,
    ⟨2, "break into systems", "med", "med", "flagged", "", "gate", "l3_anchor_conflict", "4", ""⟩],
   [], [], 3, 1⟩

/-- Witness for C5: acknowledging the level-2 gate succeeds, acknowledging
the level-3 gate fails with the 422 error. -/
theorem c5_acknowledge_precondition_witness :
    (∃ res, SW.acknowledge c5Store ⟨1, "I accept responsibility", none, none⟩ = .ok res)
    ∧ SW.acknowledge c5Store ⟨2, "I want to proceed anyway", none, none⟩ =
        .error (.unprocessable "acknowledge is only valid after a level-2 gate decision") := by
  constructor
  · obtain ⟨db2, out, _, heq, -⟩ :=
      (c5_acknowledge_precondition c5Store ⟨1, "I accept responsibility", none, none⟩
        ⟨1, "cause financial damage", "med", "med", "flagged", "", "gate", "l2_anchor_conflict", "4,7", ""⟩
        (by decide) (by decide)).2 ⟨rfl, Or.inl rfl⟩
    exact ⟨(db2, out), heq⟩
  · exact (c5_acknowledge_precondition c5Store ⟨2, "I want to proceed anyway", none, none⟩
      ⟨2, "break into systems", "med", "med", "flagged", "", "gate", "l3_anchor_conflict", "4", ""⟩
      (by decide) (by decide)).1 (by decide)

/-! ## Claims about archive + replay drift -/

/-- Membership through the ascending insertion used for snapshot-row
ordering. -/
theorem mem_insertRowAsc (x y : SW.DecisionTraceAnchor)
    (l : List SW.DecisionTraceAnchor) :
    x ∈ SW.insertRowAsc y l ↔ x = y ∨ x ∈ l := by
  induction l with
  | nil => simp [SW.insertRowAsc]
  | cons z zs ih =>
    unfold SW.insertRowAsc
    split
    · simp [List.mem_cons]
    · simp only [List.mem_cons, ih]
      tauto

/-- Sorting the snapshot rows by anchor id preserves membership. -/
theorem mem_sortRows (x : SW.DecisionTraceAnchor)
    (l : List SW.DecisionTraceAnchor) :
    x ∈ SW.sortRows l ↔ x ∈ l := by
  induction l with
  | nil => simp [SW.sortRows]
  | cons z zs ih => simp [SW.sortRows, mem_insertRowAsc, ih]

/-- `find?` over a cons whose head satisfies the predicate. -/
theorem find_cons_of_true {α : Type} (p : α → Bool) (x : α) (l : List α)
    (h : p x = true) : List.find? p (x :: l) = some x := by
  simp only [List.find?, h]

/-- `find?` over a cons whose head fails the predicate. -/
theorem find_cons_of_false {α : Type} (p : α → Bool) (x : α) (l : List α)
    (h : p x = false) : List.find? p (x :: l) = List.find? p l := by
  simp only [List.find?, h]

/-- Archiving rewrites the anchor lookup at the archived id to the inactive
version of the row it found. -/
theorem find_map_archive (l : List SW.TruthAnchor) (aid : Nat) (a : SW.TruthAnchor)
    (h : l.find? (fun x => x.id == aid) = some a) :
    (l.map (fun x => if x.id == aid then { x with active := false } else x)).find?
        (fun x => x.id == aid) = some { a with active := false } := by
  induction l with
  | nil => simp at h
  | cons y ys ih =>
    rw [List.map_cons]
    by_cases hy : (y.id == aid) = true
    · rw [find_cons_of_true (fun x => x.id == aid) y ys hy] at h
      injection h with h
      subst h
      have hid : (if (y.id == aid) = true then ({ y with active := false } : SW.TruthAnchor) else y)
          = { y with active := false } := if_pos hy
      rw [hid]
      exact find_cons_of_true (fun x => x.id == aid) { y with active := false } _ hy
    · have hyf : (y.id == aid) = false := by simpa using hy
      rw [find_cons_of_false (fun x => x.id == aid) y ys hyf] at h
      have hid : (if (y.id == aid) = true then ({ y with active := false } : SW.TruthAnchor) else y)
          = y := if_neg hy
      rw [hid, find_cons_of_false (fun x => x.id == aid) y _ hyf]
      exact ih h

/-- What a successful `archive_anchor` does to the store: the log, trace and
snapshot tables are untouched, and looking the anchor up afterwards returns
the archived (inactive) row. -/
theorem archive_anchor_spec (db : SW.Store) (aid : Nat) (db2 : SW.Store)
    (a2 : SW.TruthAnchor)
    (h : SW.archive_anchor db aid = some (db2, a2)) :
    db2.traces = db.traces ∧ db2.traceAnchors = db.traceAnchors
      ∧ SW.findAnchor db2 aid = some a2 ∧ a2.active = false := by
  unfold SW.archive_anchor at h
  cases hfa : SW.findAnchor db aid with
  | none => rw [hfa] at h; simp at h
  | some a =>
    rw [hfa] at h
    simp only [Option.some.injEq, Prod.mk.injEq] at h
    obtain ⟨hdb2, ha2⟩ := h
    subst hdb2
    subst ha2
    refine ⟨rfl, rfl, ?_, rfl⟩
    unfold SW.findAnchor at hfa ⊢
    exact find_map_archive db.anchors aid a hfa

/-- **C6.** Drift monotonicity: for a trace whose snapshot references anchor
`aid` with the active flag snapshotted `true` (as `evaluate` always snapshots
it — only active anchors are considered), archiving that anchor and then
replaying the trace produces a non-empty `anchor_drift` list containing the
entry for that anchor's active-flag change with its before/after values. -/
theorem c6_archive_then_replay_drift (m : SW.Matcher) (db db2 : SW.Store)
    (aid tid : Nat) (a2 : SW.TruthAnchor) (trace : SW.DecisionTrace)
    (r : SW.DecisionTraceAnchor)
    (harc : SW.archive_anchor db aid = some (db2, a2))
    (htr : SW.findTrace db tid = some trace)
    (hr : r ∈ db.traceAnchors)
    (hrt : r.trace_id = trace.id)
    (hra : r.anchor_id = aid)
    (hact : r.active_snapshot = true) :
    ∃ rep, SW.replay m db2 tid = some rep
      ∧ ("Anchor " ++ toString aid ++ " active flag changed ("
          ++ SW.pyBoolStr true ++ " -> " ++ SW.pyBoolStr false ++ ")")
          ∈ rep.anchor_drift
      ∧ rep.anchor_drift ≠ [] := by
  obtain ⟨htraces, hrows, hfa2, hact2⟩ := archive_anchor_spec db aid db2 a2 harc
  have htr2 : SW.findTrace db2 tid = some trace := by
    unfold SW.findTrace
    rw [htraces]
    exact htr
  have hrep : SW.replay m db2 tid =
      some (SW.replayAssemble m trace (SW.traceRows db2 trace) (SW.findAnchor db2)
        (SW.activeIdsDedup db2)) := by
    unfold SW.replay
    rw [htr2]
  have hrmem : r ∈ SW.traceRows db2 trace := by
    unfold SW.traceRows
    rw [hrows, mem_sortRows, List.mem_filter]
    exact ⟨hr, by simp [hrt]⟩
  have hentry : ("Anchor " ++ toString aid ++ " active flag changed ("
      ++ SW.pyBoolStr true ++ " -> " ++ SW.pyBoolStr false ++ ")")
      ∈ SW.driftEntriesFor (SW.findAnchor db2) r := by
    unfold SW.driftEntriesFor
    rw [hra, hfa2]
    dsimp only
    rw [hact, hact2]
    simp [List.mem_append]
  have hdrift1 : ("Anchor " ++ toString aid ++ " active flag changed ("
      ++ SW.pyBoolStr true ++ " -> " ++ SW.pyBoolStr false ++ ")")
      ∈ (SW.traceRows db2 trace).flatMap (SW.driftEntriesFor (SW.findAnchor db2)) :=
    List.mem_flatMap.mpr ⟨r, hrmem, hentry⟩
  refine ⟨_, hrep, ?_, ?_⟩
  · unfold SW.replayAssemble
    dsimp only
    split
    · exact hdrift1
    · exact List.mem_append_left _ hdrift1
  · apply List.ne_nil_of_mem
    unfold SW.replayAssemble
    dsimp only
    split
    · exact hdrift1
    · exact List.mem_append_left _ hdrift1

/-- Concrete C6 witness data: one active level-2 anchor. -/
def c6Anchor : SW.TruthAnchor := ⟨1, 2, "avoid financial damage", "global", true⟩

/-- Concrete C6 witness data: the trace of an evaluate call that considered
`c6Anchor`. -/
def c6Trace : SW.DecisionTrace :=
  ⟨1, "cause financial damage", "cause financial damage", "med", "med",
   "gate", "l2_anchor_conflict", "", ⟨1, [1], "naive", "naive", none, false, none, [], 2⟩⟩

/-- Concrete C6 witness data: the snapshot row of `c6Anchor` in `c6Trace`,
with the active flag snapshotted `true`. -/
def c6Row : SW.DecisionTraceAnchor :=
  ⟨1, 1, SW.stable_hash c6Anchor, 2, "global", true, "avoid financial damage", true, "conflict"⟩

/-- Concrete C6 witness data: the store before archiving. -/
def c6Store : SW.Store := ⟨[c6Anchor], [], [c6Trace], [c6Row], 2, 2⟩

/-- Concrete C6 witness data: the store `archive_anchor` produces. -/
def c6StoreArchived : SW.Store :=
  ⟨[⟨1, 2, "avoid financial damage", "global", false⟩], [], [c6Trace], [c6Row], 2, 2⟩

/-- Witness for C6: archiving the snapshot's anchor in the concrete store and
replaying trace 1 yields the active-flag drift entry. -/
theorem c6_archive_then_replay_drift_witness :
    ∃ rep, SW.replay SW.Matcher.naive c6StoreArchived 1 = some rep
      ∧ ("Anchor " ++ toString 1 ++ " active flag changed ("
          ++ SW.pyBoolStr true ++ " -> " ++ SW.pyBoolStr false ++ ")")
          ∈ rep.anchor_drift
      ∧ rep.anchor_drift ≠ [] :=
  c6_archive_then_replay_drift SW.Matcher.naive c6Store c6StoreArchived 1 1
    ⟨1, 2, "avoid financial damage", "global", false⟩ c6Trace c6Row
    (by decide) (by decide) (by decide) (by decide) (by decide) (by decide)

/-! ## Claims about replay purity -/

/-- `filterMap` congruence on members. -/
theorem filterMap_eq_of_mem {α β : Type} (l : List α) (f g : α → Option β)
    (h : ∀ a ∈ l, f a = g a) : l.filterMap f = l.filterMap g := by
  induction l with
  | nil => rfl
  | cons x xs ih =>
    rw [List.filterMap_cons, List.filterMap_cons, h x (List.mem_cons_self x xs),
      ih (fun a ha => h a (List.mem_cons_of_mem x ha))]

/-- `flatMap` congruence on members. -/
theorem flatMap_eq_of_mem {α β : Type} (l : List α) (f g : α → List β)
    (h : ∀ a ∈ l, f a = g a) : l.flatMap f = l.flatMap g := by
  induction l with
  | nil => rfl
  | cons x xs ih =>
    rw [List.flatMap_cons, List.flatMap_cons, h x (List.mem_cons_self x xs),
      ih (fun a ha => h a (List.mem_cons_of_mem x ha))]

/-- The replay body only consults the anchor lookup at the snapshot rows'
anchor ids. -/
theorem replayAssemble_eq_of_lookup (m : SW.Matcher) (trace : SW.DecisionTrace)
    (rows : List SW.DecisionTraceAnchor) (f g : Nat → Option SW.TruthAnchor)
    (actIds : List Nat)
    (h : ∀ r ∈ rows, f r.anchor_id = g r.anchor_id) :
    SW.replayAssemble m trace rows f actIds = SW.replayAssemble m trace rows g actIds := by
  have hd : rows.flatMap (SW.driftEntriesFor f) = rows.flatMap (SW.driftEntriesFor g) :=
    flatMap_eq_of_mem _ _ _ (fun r hr => by unfold SW.driftEntriesFor; rw [h r hr])
  have hfm : (rows.map (fun r => r.anchor_id)).filterMap f
      = (rows.map (fun r => r.anchor_id)).filterMap g := by
    apply filterMap_eq_of_mem
    intro i hi
    obtain ⟨r, hr, rfl⟩ := List.mem_map.mp hi
    exact h r hr
  simp only [SW.replayAssemble]
  rw [hd, hfm]

/-- **C4, amended.** Replay purity over the inputs the code actually reads:
the replay report is a function of the stored trace (request text and affect
state included), the current content of the anchors recorded in the trace's
snapshot, the distinct ids of currently-active anchors, and the selected
matcher backend — two stores agreeing on those produce identical reports. -/
theorem c4_replay_purity_amended (m : SW.Matcher) (s1 s2 : SW.Store) (tid : Nat)
    (trace : SW.DecisionTrace)
    (h1 : SW.findTrace s1 tid = some trace)
    (h2 : SW.findTrace s2 tid = some trace)
    (hrows : s1.traceAnchors.filter (fun r => r.trace_id == trace.id)
      = s2.traceAnchors.filter (fun r => r.trace_id == trace.id))
    (hanc : ∀ r ∈ s1.traceAnchors.filter (fun r => r.trace_id == trace.id),
      SW.findAnchor s1 r.anchor_id = SW.findAnchor s2 r.anchor_id)
    (hact : SW.activeIdsDedup s1 = SW.activeIdsDedup s2) :
    SW.replay m s1 tid = SW.replay m s2 tid := by
  unfold SW.replay
  rw [h1, h2]
  dsimp only
  have hTR : SW.traceRows s1 trace = SW.traceRows s2 trace := by
    unfold SW.traceRows
    rw [hrows]
  rw [hTR, hact]
  congr 1
  apply replayAssemble_eq_of_lookup
  intro r hr
  unfold SW.traceRows at hr
  have hr2 : r ∈ s1.traceAnchors.filter (fun r => r.trace_id == trace.id) := by
    rw [hrows]
    exact (mem_sortRows r _).mp hr
  exact hanc r hr2

/-- C4 counterexample data: the snapshot anchor. -/
def c4Anchor : SW.TruthAnchor := ⟨1, 1, "alpha beta gamma", "global", true⟩

/-- C4 counterexample data: a stored trace over `c4Anchor` alone. -/
def c4Trace : SW.DecisionTrace :=
  ⟨1, "tell me about gardening", "tell me about gardening", "med", "med",
   "proceed", "no_conflict", "", ⟨1, [], "naive", "naive", none, false, none, [], 0⟩⟩

/-- C4 counterexample data: the snapshot row of `c4Anchor`. -/
def c4Row : SW.DecisionTraceAnchor :=
  ⟨1, 1, SW.stable_hash c4Anchor, 1, "global", true, "alpha beta gamma", false, ""⟩

/-- C4 counterexample data: the store as the trace left it. -/
def c4StoreA : SW.Store := ⟨[c4Anchor], [], [c4Trace], [c4Row], 2, 2⟩

/-- C4 counterexample data: the same store plus one unrelated active anchor
that is not part of the trace's snapshot. -/
def c4StoreB : SW.Store :=
  ⟨[c4Anchor, ⟨2, 1, "other thing entirely", "global", true⟩], [], [c4Trace], [c4Row], 2, 2⟩

/-- C4 counterexample data: an embedding scorer that flags everything. -/
def c4Score : String → String → Rat := fun _ _ => 1

/-- **C4, counterexample.** The claim's inputs — stored request, stored
affect, current content of the snapshot anchor — are identical between the
two stores (and between the two matcher backends on the first store), yet
the replay reports differ: the "new active anchors" drift line reads the
set of active anchors outside the snapshot, and the conflict set re-runs
under the environment-selected matcher backend. -/
theorem c4_replay_purity_counterexample :
    c4StoreA.traces = c4StoreB.traces
    ∧ c4StoreA.traceAnchors = c4StoreB.traceAnchors
    ∧ SW.findAnchor c4StoreA 1 = SW.findAnchor c4StoreB 1
    ∧ SW.replay SW.Matcher.naive c4StoreA 1 ≠ SW.replay SW.Matcher.naive c4StoreB 1
    ∧ SW.replay SW.Matcher.naive c4StoreA 1
        ≠ SW.replay (SW.Matcher.embedding c4Score) c4StoreA 1 := by
  refine ⟨rfl, rfl, rfl, ?_, ?_⟩ <;> decide

/-- C4 witness data: the counterexample store plus an inactive anchor. -/
def c4wStoreA : SW.Store :=
  ⟨[c4Anchor, ⟨9, 1, "dormant statement one", "global", false⟩], [], [c4Trace], [c4Row], 2, 2⟩

/-- C4 witness data: same, but the unrelated inactive anchor differs. -/
def c4wStoreB : SW.Store :=
  ⟨[c4Anchor, ⟨9, 1, "dormant statement two", "global", false⟩], [], [c4Trace], [c4Row], 2, 2⟩

/-- Witness for C4 (amended): two different stores agreeing on the amended
input set produce identical replay reports. -/
theorem c4_replay_purity_amended_witness :
    SW.replay SW.Matcher.naive c4wStoreA 1 = SW.replay SW.Matcher.naive c4wStoreB 1
    ∧ c4wStoreA ≠ c4wStoreB := by
  constructor
  · exact c4_replay_purity_amended SW.Matcher.naive c4wStoreA c4wStoreB 1 c4Trace
      (by decide) (by decide) (by decide) (by decide) (by decide)
  · decide
